import Mathlib

/-!
Shallow embedding of the 2D gravitational N-body simulation engine in
`src/src-tauri/src/physics.rs` (repository `afghantracklist`), with theorems
settling the specification claims about it.

Machine floating-point (`f64`) is modelled by `ℝ`; the points where the Rust
code would divide by zero (producing IEEE `NaN`/`Inf`) are tracked explicitly
where a claim is about them.
-/

noncomputable section

namespace AfghanTracklist

/-- Embeds `Vec2` (physics.rs lines 14-18): a 2D real-valued vector. -/
@[ext]
structure Vec2 where
  x : ℝ
  y : ℝ

instance : Inhabited Vec2 := ⟨⟨0, 0⟩⟩

/-- Embeds `Vec2::distance` (physics.rs lines 25-29): Euclidean distance. -/
def Vec2.distance (a b : Vec2) : ℝ :=
  Real.sqrt ((a.x - b.x) * (a.x - b.x) + (a.y - b.y) * (a.y - b.y))

/-- Negation of a 2D vector, used to state Newton's third law. -/
def Vec2.neg (v : Vec2) : Vec2 := ⟨-v.x, -v.y⟩

/-- Euclidean norm of a 2D vector, used to state displacement magnitudes. -/
def Vec2.norm (v : Vec2) : ℝ := Real.sqrt (v.x * v.x + v.y * v.y)

/-- Embeds `Body` (physics.rs lines 4-12). `u32` ids are modelled by `ℕ`. -/
@[ext]
structure Body where
  id : ℕ
  mass : ℝ
  position : Vec2
  velocity : Vec2
  radius : ℝ
  color : String

instance : Inhabited Body :=
  ⟨⟨0, 0, ⟨0, 0⟩, ⟨0, 0⟩, 0, ""⟩⟩

/-- Embeds `SimulationState` (physics.rs lines 32-40). -/
structure SimulationState where
  bodies : List Body
  time_step : ℝ
  time_multiplier : ℝ
  gravity_constant : ℝ
  is_running : Bool
  elapsed_time : ℝ

/-- The index pairs `(i, j)` with `i < j < n`, in the order the nested
`for i { for j in (i+1).. }` loops of `calculate_forces` and
`handle_collisions` visit them. -/
def pairList (n : ℕ) : List (ℕ × ℕ) :=
  (List.range n).flatMap (fun i => ((List.range n).drop (i + 1)).map (fun j => (i, j)))

/-- Embeds the per-pair force of `calculate_forces` (physics.rs lines 252-263):
distance clamped to `0.8 · (r1 + r2)` in the magnitude, but the direction is
normalized by the unclamped distance. -/
def pairForce (g : ℝ) (b1 b2 : Body) : Vec2 :=
  let dist := Vec2.distance b1.position b2.position
  let min_dist := (b1.radius + b2.radius) * 0.8
  let clamped_dist := max dist min_dist
  let force_magnitude := g * b1.mass * b2.mass / (clamped_dist * clamped_dist)
  let dx := b2.position.x - b1.position.x
  let dy := b2.position.y - b1.position.y
  ⟨force_magnitude * dx / dist, force_magnitude * dy / dist⟩

/-- Embeds one iteration of the inner loop of `calculate_forces`
(physics.rs lines 265-269): add the pair force to slot `i`, subtract it
from slot `j`. -/
def applyPairForce (g : ℝ) (bodies : List Body) (forces : List Vec2)
    (ij : ℕ × ℕ) : List Vec2 :=
  let f := pairForce g (bodies.getD ij.1 default) (bodies.getD ij.2 default)
  let fi := forces.getD ij.1 default
  let forces1 := forces.set ij.1 ⟨fi.x + f.x, fi.y + f.y⟩
  let fj := forces1.getD ij.2 default
  forces1.set ij.2 ⟨fj.x - f.x, fj.y - f.y⟩

/-- Embeds `SimulationState::calculate_forces` (physics.rs lines 244-273). -/
def calculate_forces (g : ℝ) (bodies : List Body) : List Vec2 :=
  (pairList bodies.length).foldl (applyPairForce g bodies)
    (List.replicate bodies.length ⟨0, 0⟩)

/-- The guard condition absent from the Rust code: `calculate_forces` divides
`force_magnitude * dx` and `force_magnitude * dy` by the unclamped `dist`
(physics.rs lines 262-263). This checked variant returns `none` exactly when
some visited pair has `dist = 0`, i.e. when the Rust `f64` computation
performs `0.0 / 0.0` and produces `NaN` in the returned force vectors. -/
def calculate_forcesChecked (g : ℝ) (bodies : List Body) : Option (List Vec2) :=
  if ∀ ij ∈ pairList bodies.length,
      Vec2.distance (bodies.getD ij.1 default).position
        (bodies.getD ij.2 default).position ≠ 0 then
    some (calculate_forces g bodies)
  else
    none

/-- One entry of the `collision_data` vector of `handle_collisions`
(physics.rs line 225): pair indices, velocity changes and positional
corrections for both bodies. -/
structure CollisionEntry where
  i : ℕ
  j : ℕ
  vel_i : Vec2
  vel_j : Vec2
  pos_i : Vec2
  pos_j : Vec2

instance : Inhabited CollisionEntry :=
  ⟨⟨0, 0, default, default, default, default⟩⟩

/-- Embeds the per-pair detection/response of `handle_collisions`
(physics.rs lines 177-226): `none` when the pair does not collide or is not
approaching, otherwise the impulse and positional correction recorded in
`collision_data`. -/
def collisionEntry (i j : ℕ) (b1 b2 : Body) : Option CollisionEntry :=
  let distance := Vec2.distance b1.position b2.position
  if distance < b1.radius + b2.radius then
    let dx := b2.position.x - b1.position.x
    let dy := b2.position.y - b1.position.y
    let inv_dist := 1 / max distance 0.001
    let nx := dx * inv_dist
    let ny := dy * inv_dist
    let dvx := b2.velocity.x - b1.velocity.x
    let dvy := b2.velocity.y - b1.velocity.y
    let relative_vel_dot_normal := dvx * nx + dvy * ny
    if relative_vel_dot_normal < 0 then
      let restitution := (0.7 : ℝ)
      let inv_mass1 := 1 / b1.mass
      let inv_mass2 := 1 / b2.mass
      let impulse_scalar := -(1 + restitution) * relative_vel_dot_normal /
        (inv_mass1 + inv_mass2)
      let impulse_x := impulse_scalar * nx
      let impulse_y := impulse_scalar * ny
      let penetration := (b1.radius + b2.radius) - distance
      let percent := (0.4 : ℝ)
      let correction_x := nx * penetration * percent
      let correction_y := ny * penetration * percent
      some ⟨i, j,
        ⟨-impulse_x * inv_mass1, -impulse_y * inv_mass1⟩,
        ⟨impulse_x * inv_mass2, impulse_y * inv_mass2⟩,
        ⟨-correction_x * inv_mass1 / (inv_mass1 + inv_mass2),
         -correction_y * inv_mass1 / (inv_mass1 + inv_mass2)⟩,
        ⟨correction_x * inv_mass2 / (inv_mass1 + inv_mass2),
         correction_y * inv_mass2 / (inv_mass1 + inv_mass2)⟩⟩
    else none
  else none

/-- Embeds the application loop of `handle_collisions`
(physics.rs lines 231-241): add the recorded velocity changes and positional
corrections of one entry to bodies `i` and `j`. -/
def applyCollisionEntry (bodies : List Body) (e : CollisionEntry) : List Body :=
  let bi := bodies.getD e.i default
  let bodies1 := bodies.set e.i
    { bi with velocity := ⟨bi.velocity.x + e.vel_i.x, bi.velocity.y + e.vel_i.y⟩ }
  let bj := bodies1.getD e.j default
  let bodies2 := bodies1.set e.j
    { bj with velocity := ⟨bj.velocity.x + e.vel_j.x, bj.velocity.y + e.vel_j.y⟩ }
  let bi2 := bodies2.getD e.i default
  let bodies3 := bodies2.set e.i
    { bi2 with position := ⟨bi2.position.x + e.pos_i.x, bi2.position.y + e.pos_i.y⟩ }
  let bj2 := bodies3.getD e.j default
  bodies3.set e.j
    { bj2 with position := ⟨bj2.position.x + e.pos_j.x, bj2.position.y + e.pos_j.y⟩ }

/-- Embeds `SimulationState::handle_collisions` (physics.rs lines 169-242):
detect all colliding approaching pairs from a snapshot of the body list, then
apply all recorded changes. -/
def handle_collisions (bodies : List Body) : List Body :=
  let collision_data := (pairList bodies.length).filterMap
    (fun ij => collisionEntry ij.1 ij.2 (bodies.getD ij.1 default)
      (bodies.getD ij.2 default))
  collision_data.foldl applyCollisionEntry bodies

/-- Embeds the per-body integration of `step` (physics.rs lines 152-162):
semi-implicit Euler, velocity updated first, position update reading the
already-updated velocity. -/
def integrateBody (dt : ℝ) (b : Body) (f : Vec2) : Body :=
  let acc_x := f.x / b.mass
  let acc_y := f.y / b.mass
  let vx := b.velocity.x + acc_x * dt
  let vy := b.velocity.y + acc_y * dt
  { b with
    velocity := ⟨vx, vy⟩,
    position := ⟨b.position.x + vx * dt, b.position.y + vy * dt⟩ }

/-- Embeds the integration loop of `step` over all bodies with their forces. -/
def integrate (dt : ℝ) (bodies : List Body) (forces : List Vec2) : List Body :=
  List.zipWith (integrateBody dt) bodies forces

/-- Embeds `SimulationState::step` (physics.rs lines 143-167): early return
when not running, otherwise forces, integration, collision resolution, and
clock advance by `time_step * time_multiplier`. -/
def SimulationState.step (s : SimulationState) : SimulationState :=
  if s.is_running then
    let effective_time_step := s.time_step * s.time_multiplier
    let forces := calculate_forces s.gravity_constant s.bodies
    let moved := integrate effective_time_step s.bodies forces
    { s with
      bodies := handle_collisions moved,
      elapsed_time := s.elapsed_time + effective_time_step }
  else s

/-- Embeds the per-body field patch of `update_body` (physics.rs
lines 317-323): each `Some` field is assigned, each `None` field keeps its
previous value. -/
def applyFields (b : Body) (mass px py vx vy r : Option ℝ) (c : Option String) :
    Body :=
  { b with
    mass := mass.getD b.mass,
    position := ⟨px.getD b.position.x, py.getD b.position.y⟩,
    velocity := ⟨vx.getD b.velocity.x, vy.getD b.velocity.y⟩,
    radius := r.getD b.radius,
    color := c.getD b.color }

/-- Embeds the Tauri command `update_body` (physics.rs lines 311-325) acting
on the body list: `iter_mut().find` patches the first body whose id matches;
an absent id leaves the list unchanged. -/
def update_body (bodies : List Body) (id : ℕ) (mass px py vx vy r : Option ℝ)
    (c : Option String) : List Body :=
  match bodies with
  | [] => []
  | b :: rest =>
    if b.id = id then applyFields b mass px py vx vy r c :: rest
    else b :: update_body rest id mass px py vx vy r c

/-- The planet tuple list of `SimulationState::new` (physics.rs lines 61-66):
`(mass, orbital distance, radius, color)`. -/
def planet_data : List (ℝ × ℝ × ℝ × String) :=
  [(1.0e3, 120.0, 10.0, "#ff9999"),
   (1.5e3, 200.0, 12.0, "#3366ff"),
   (3.0e3, 350.0, 18.0, "#ff6600"),
   (2.0e3, 450.0, 15.0, "#33ccff")]

/-- The moon tuple list of `SimulationState::new` (physics.rs lines 107-110). -/
def moon_data : List (ℝ × ℝ × ℝ × String) :=
  [(100.0, 35.0, 4.0, "#cccccc"),
   (50.0, 25.0, 3.0, "#aaaaaa")]

/-- Embeds one iteration of the planet loop of `SimulationState::new`
(physics.rs lines 68-87): circular-orbit speed around the sun, angles evenly
spread over the full circle, ids starting at 2. -/
def mkPlanet (g sun_mass : ℝ) (n i : ℕ) (d : ℝ × ℝ × ℝ × String) : Body :=
  let orbital_speed := Real.sqrt (g * sun_mass / d.2.1)
  let angle := Real.pi * 2 * (i : ℝ) / (n : ℝ)
  { id := i + 2,
    mass := d.1,
    position := ⟨Real.cos angle * d.2.1, Real.sin angle * d.2.1⟩,
    velocity := ⟨-Real.sin angle * orbital_speed, Real.cos angle * orbital_speed⟩,
    radius := d.2.2.1,
    color := d.2.2.2 }

/-- The planet loop of `SimulationState::new`, one body per tuple in order. -/
def mkPlanets (g sun_mass : ℝ) (n : ℕ) : ℕ → List (ℝ × ℝ × ℝ × String) → List Body
  | _, [] => []
  | i, d :: rest => mkPlanet g sun_mass n i d :: mkPlanets g sun_mass n (i + 1) rest

/-- Embeds one iteration of the moon loop of `SimulationState::new`
(physics.rs lines 112-131): circular-orbit speed around the host planet,
angles evenly spread over a half circle, position and velocity offset by the
host snapshot, id `bodies.len() + 1` at push time. -/
def mkMoon (g host_mass : ℝ) (host_pos host_vel : Vec2) (n i len_before : ℕ)
    (d : ℝ × ℝ × ℝ × String) : Body :=
  let orbital_speed := Real.sqrt (g * host_mass / d.2.1)
  let angle := Real.pi * (i : ℝ) / (n : ℝ)
  { id := len_before + 1,
    mass := d.1,
    position := ⟨host_pos.x + Real.cos angle * d.2.1,
                 host_pos.y + Real.sin angle * d.2.1⟩,
    velocity := ⟨host_vel.x - Real.sin angle * orbital_speed,
                 host_vel.y + Real.cos angle * orbital_speed⟩,
    radius := d.2.2.1,
    color := d.2.2.2 }

/-- The moon loop of `SimulationState::new`: the host snapshot is fixed before
the loop, each pushed moon increments the list length used for the next id. -/
def mkMoons (g host_mass : ℝ) (host_pos host_vel : Vec2) (n : ℕ) :
    ℕ → ℕ → List (ℝ × ℝ × ℝ × String) → List Body
  | _, _, [] => []
  | i, len_before, d :: rest =>
    mkMoon g host_mass host_pos host_vel n i len_before d ::
      mkMoons g host_mass host_pos host_vel n (i + 1) (len_before + 1) rest

/-- Embeds `SimulationState::new` (physics.rs lines 44-141): sun with id 1 at
the origin, four planets, two moons around `bodies[2]` whose mass, position
and velocity are captured before any moon is appended. -/
def SimulationState.new : SimulationState :=
  let g : ℝ := 6.67430e-1
  let sun : Body :=
    { id := 1, mass := 8.0e3, position := ⟨0, 0⟩, velocity := ⟨0, 0⟩,
      radius := 25.0, color := "#ffcc00" }
  let sun_mass : ℝ := 8.0e3
  let bodies0 := sun :: mkPlanets g sun_mass planet_data.length 0 planet_data
  let planet := bodies0.getD 2 default
  let moons := mkMoons g planet.mass planet.position planet.velocity
    moon_data.length 0 bodies0.length moon_data
  { bodies := bodies0 ++ moons,
    time_step := 0.01,
    time_multiplier := 1.0,
    gravity_constant := g,
    is_running := false,
    elapsed_time := 0.0 }

/-- The x component of the contact normal of `handle_collisions`
(physics.rs lines 180-184), written exactly as the code computes it:
`dx * (1 / max(distance, 0.001))`. -/
def normalX (b1 b2 : Body) : ℝ :=
  (b2.position.x - b1.position.x) *
    (1 / max (Vec2.distance b1.position b2.position) 0.001)

/-- The y component of the contact normal of `handle_collisions`. -/
def normalY (b1 b2 : Body) : ℝ :=
  (b2.position.y - b1.position.y) *
    (1 / max (Vec2.distance b1.position b2.position) 0.001)

/-- The relative velocity along the contact normal (physics.rs line 188). -/
def relVelAlongNormal (b1 b2 : Body) : ℝ :=
  (b2.velocity.x - b1.velocity.x) * normalX b1 b2 +
    (b2.velocity.y - b1.velocity.y) * normalY b1 b2

/-- The penetration depth of a colliding pair (physics.rs line 210). -/
def penetrationDepth (b1 b2 : Body) : ℝ :=
  (b1.radius + b2.radius) - Vec2.distance b1.position b2.position

/-! Concrete states and bodies used as witnesses and counterexamples. -/

/-- A light body approaching `collideB` head-on while overlapping it. -/
def collideA : Body :=
  { id := 1, mass := 1, position := ⟨0, 0⟩, velocity := ⟨1, 0⟩,
    radius := 10, color := "#111111" }

/-- A body of twice the mass of `collideA`, 15 units away (radii sum 20). -/
def collideB : Body :=
  { id := 2, mass := 2, position := ⟨15, 0⟩, velocity := ⟨-1, 0⟩,
    radius := 10, color := "#222222" }

/-- A running one-body state used to witness the integrator claims. -/
def runState : SimulationState :=
  { bodies := [collideA], time_step := 0.01, time_multiplier := 1.0,
    gravity_constant := 6.67430e-1, is_running := true, elapsed_time := 0.0 }

/-- Two coincident bodies: both centers at the origin. -/
def coincidentA : Body :=
  { id := 1, mass := 1000, position := ⟨0, 0⟩, velocity := ⟨0, 0⟩,
    radius := 10, color := "#ffffff" }

/-- Second coincident body, same center as `coincidentA`. -/
def coincidentB : Body :=
  { id := 2, mass := 1000, position := ⟨0, 0⟩, velocity := ⟨0, 0⟩,
    radius := 10, color := "#000000" }

/-- A paused state: `is_running = false`. -/
def pausedState : SimulationState :=
  { bodies := [coincidentA], time_step := 0.01, time_multiplier := 1.0,
    gravity_constant := 6.67430e-1, is_running := false, elapsed_time := 5.0 }

/-- A running state with a negative time multiplier, as `set_time_multiplier`
allows (physics.rs lines 305-309 perform no validation). -/
def backwardState : SimulationState :=
  { bodies := [], time_step := 0.01, time_multiplier := -1.0,
    gravity_constant := 6.67430e-1, is_running := true, elapsed_time := 0.0 }

/-- A running state with the default positive multiplier. -/
def demoState : SimulationState :=
  { bodies := [], time_step := 0.01, time_multiplier := 1.0,
    gravity_constant := 6.67430e-1, is_running := true, elapsed_time := 0.0 }

theorem pairList_two : pairList 2 = [(0, 1)] := by decide

/-- Evaluation lemma: when a pair is overlapping and approaching,
`collisionEntry` records exactly the impulse and positional-correction
values of physics.rs lines 191-225. -/
theorem collisionEntry_eval (i j : ℕ) (b1 b2 : Body)
    (hcol : Vec2.distance b1.position b2.position < b1.radius + b2.radius)
    (happ : relVelAlongNormal b1 b2 < 0) :
    collisionEntry i j b1 b2 = some
      ⟨i, j,
        ⟨-(-(1 + 0.7) * relVelAlongNormal b1 b2 / (1 / b1.mass + 1 / b2.mass) *
            normalX b1 b2) * (1 / b1.mass),
         -(-(1 + 0.7) * relVelAlongNormal b1 b2 / (1 / b1.mass + 1 / b2.mass) *
            normalY b1 b2) * (1 / b1.mass)⟩,
        ⟨-(1 + 0.7) * relVelAlongNormal b1 b2 / (1 / b1.mass + 1 / b2.mass) *
            normalX b1 b2 * (1 / b2.mass),
         -(1 + 0.7) * relVelAlongNormal b1 b2 / (1 / b1.mass + 1 / b2.mass) *
            normalY b1 b2 * (1 / b2.mass)⟩,
        ⟨-(normalX b1 b2 * penetrationDepth b1 b2 * 0.4) * (1 / b1.mass) /
            (1 / b1.mass + 1 / b2.mass),
         -(normalY b1 b2 * penetrationDepth b1 b2 * 0.4) * (1 / b1.mass) /
            (1 / b1.mass + 1 / b2.mass)⟩,
        ⟨normalX b1 b2 * penetrationDepth b1 b2 * 0.4 * (1 / b2.mass) /
            (1 / b1.mass + 1 / b2.mass),
         normalY b1 b2 * penetrationDepth b1 b2 * 0.4 * (1 / b2.mass) /
            (1 / b1.mass + 1 / b2.mass)⟩⟩ := by
  have happ2 : (b2.velocity.x - b1.velocity.x) *
      ((b2.position.x - b1.position.x) *
        (1 / max (Vec2.distance b1.position b2.position) 0.001)) +
      (b2.velocity.y - b1.velocity.y) *
      ((b2.position.y - b1.position.y) *
        (1 / max (Vec2.distance b1.position b2.position) 0.001)) < 0 := by
    simpa only [relVelAlongNormal, normalX, normalY] using happ
  simp only [collisionEntry]
  rw [if_pos hcol, if_pos happ2]
  rfl

/-- The squared distance equals the squared coordinate differences. -/
theorem distance_mul_self (b1 b2 : Body) :
    Vec2.distance b1.position b2.position *
      Vec2.distance b1.position b2.position =
    (b2.position.x - b1.position.x) * (b2.position.x - b1.position.x) +
      (b2.position.y - b1.position.y) * (b2.position.y - b1.position.y) := by
  have hA : (0:ℝ) ≤
      (b1.position.x - b2.position.x) * (b1.position.x - b2.position.x) +
      (b1.position.y - b2.position.y) * (b1.position.y - b2.position.y) :=
    add_nonneg (mul_self_nonneg _) (mul_self_nonneg _)
  rw [Vec2.distance, Real.mul_self_sqrt hA]
  ring

/-- When the distance is at least the 0.001 clamp, the stored contact normal
is a unit vector. -/
theorem normal_sq_one (b1 b2 : Body)
    (hd : (0.001 : ℝ) ≤ Vec2.distance b1.position b2.position) :
    normalX b1 b2 * normalX b1 b2 + normalY b1 b2 * normalY b1 b2 = 1 := by
  have hpos : (0:ℝ) < Vec2.distance b1.position b2.position :=
    lt_of_lt_of_le (by norm_num) hd
  have hne : Vec2.distance b1.position b2.position ≠ 0 := ne_of_gt hpos
  have hmax : max (Vec2.distance b1.position b2.position) (0.001 : ℝ) =
      Vec2.distance b1.position b2.position := max_eq_left hd
  rw [normalX, normalY, hmax]
  have hsq := distance_mul_self b1 b2
  field_simp
  linarith [hsq]

/-- Norm of a componentwise scaling of a 2D vector. -/
theorem norm_scale (t a b : ℝ) :
    Vec2.norm ⟨t * a, t * b⟩ = |t| * Vec2.norm ⟨a, b⟩ := by
  rw [Vec2.norm, Vec2.norm]
  rw [show (t * a) * (t * a) + (t * b) * (t * b) = (t * t) * (a * a + b * b) from
    by ring]
  rw [Real.sqrt_mul (mul_self_nonneg t), Real.sqrt_mul_self_eq_abs]

theorem collide_distance :
    Vec2.distance collideA.position collideB.position = 15 := by
  have h : ((collideA.position.x - collideB.position.x) *
      (collideA.position.x - collideB.position.x) +
      (collideA.position.y - collideB.position.y) *
      (collideA.position.y - collideB.position.y) : ℝ) = 15 ^ 2 := by
    norm_num [collideA, collideB]
  rw [Vec2.distance, h, Real.sqrt_sq (by norm_num : (0:ℝ) ≤ 15)]

theorem collide_normalX : normalX collideA collideB = 1 := by
  rw [normalX, collide_distance, max_eq_left (by norm_num : (0.001:ℝ) ≤ 15)]
  norm_num [collideA, collideB]

theorem collide_normalY : normalY collideA collideB = 0 := by
  rw [normalY, collide_distance]
  norm_num [collideA, collideB]

theorem collide_relVel : relVelAlongNormal collideA collideB = -2 := by
  rw [relVelAlongNormal, collide_normalX, collide_normalY]
  norm_num [collideA, collideB]

theorem collide_penetration : penetrationDepth collideA collideB = 5 := by
  rw [penetrationDepth, collide_distance]
  norm_num [collideA, collideB]

/-- C2 counterexample: for the overlapping approaching pair `collideA`
(mass 1) and `collideB` (mass 2), penetration 5 and unit normal `(1, 0)`,
the code displaces body A by `-(4/3)` and body B by `2/3` along x: each
body's share is proportional to its OWN inverse mass. The claim's split "in
proportion to the other body's inverse mass" predicts `-(2/3)` for A and
`4/3` for B instead, so the claim as stated is false at this input. -/
theorem c2_counterexample :
    ((collisionEntry 0 1 collideA collideB).getD default).pos_i.x = -(4 / 3) ∧
    ((collisionEntry 0 1 collideA collideB).getD default).pos_j.x = 2 / 3 ∧
    ¬ (((collisionEntry 0 1 collideA collideB).getD default).pos_i.x =
        -(0.4 * penetrationDepth collideA collideB *
          ((1 / collideB.mass) / (1 / collideA.mass + 1 / collideB.mass))) *
          normalX collideA collideB ∧
      ((collisionEntry 0 1 collideA collideB).getD default).pos_j.x =
        (0.4 * penetrationDepth collideA collideB *
          ((1 / collideA.mass) / (1 / collideA.mass + 1 / collideB.mass))) *
          normalX collideA collideB) := by
  have heval := collisionEntry_eval 0 1 collideA collideB
    (by rw [collide_distance]; norm_num [collideA, collideB])
    (by rw [collide_relVel]; norm_num)
  rw [heval, Option.getD_some]
  dsimp only
  rw [collide_normalX, collide_penetration]
  norm_num [collideA, collideB]

/-- C2 amended: for every colliding, approaching pair with positive masses
and center distance at least the 0.001 clamp, the recorded positional
corrections move the bodies apart along the unit contact normal by a total
of 40% of the penetration depth, each body's displacement magnitude being
proportional to its own inverse mass (mass times displacement magnitude is
equal on both sides), so the heavier body of the pair receives the smaller
displacement. -/
theorem c2_positional_correction_amended (b1 b2 : Body)
    (hm1 : 0 < b1.mass) (hm2 : 0 < b2.mass)
    (hd : (0.001 : ℝ) ≤ Vec2.distance b1.position b2.position)
    (hcol : Vec2.distance b1.position b2.position < b1.radius + b2.radius)
    (happ : relVelAlongNormal b1 b2 < 0) :
    ∃ e, collisionEntry 0 1 b1 b2 = some e ∧
      e.pos_j.x - e.pos_i.x =
        0.4 * penetrationDepth b1 b2 * normalX b1 b2 ∧
      e.pos_j.y - e.pos_i.y =
        0.4 * penetrationDepth b1 b2 * normalY b1 b2 ∧
      Vec2.norm e.pos_i + Vec2.norm e.pos_j = 0.4 * penetrationDepth b1 b2 ∧
      b1.mass * Vec2.norm e.pos_i = b2.mass * Vec2.norm e.pos_j ∧
      (b1.mass ≤ b2.mass → Vec2.norm e.pos_j ≤ Vec2.norm e.pos_i) := by
  have hm1' : b1.mass ≠ 0 := ne_of_gt hm1
  have hm2' : b2.mass ≠ 0 := ne_of_gt hm2
  have hi1 : (0:ℝ) < 1 / b1.mass := by
    rw [one_div]
    exact inv_pos.mpr hm1
  have hi2 : (0:ℝ) < 1 / b2.mass := by
    rw [one_div]
    exact inv_pos.mpr hm2
  have hS : (0:ℝ) < 1 / b1.mass + 1 / b2.mass := add_pos hi1 hi2
  have hS' : (1 / b1.mass + 1 / b2.mass : ℝ) ≠ 0 := ne_of_gt hS
  have hpen : (0:ℝ) < penetrationDepth b1 b2 := by
    rw [penetrationDepth]
    exact sub_pos.mpr hcol
  have hn : Vec2.norm ⟨normalX b1 b2, normalY b1 b2⟩ = 1 := by
    rw [Vec2.norm]
    dsimp only
    rw [normal_sq_one b1 b2 hd, Real.sqrt_one]
  have hXi0 : (0:ℝ) < penetrationDepth b1 b2 * 0.4 * (1 / b1.mass) /
      (1 / b1.mass + 1 / b2.mass) :=
    div_pos (mul_pos (mul_pos hpen (by norm_num)) hi1) hS
  have hXj0 : (0:ℝ) < penetrationDepth b1 b2 * 0.4 * (1 / b2.mass) /
      (1 / b1.mass + 1 / b2.mass) :=
    div_pos (mul_pos (mul_pos hpen (by norm_num)) hi2) hS
  have hpi : (⟨-(normalX b1 b2 * penetrationDepth b1 b2 * 0.4) * (1 / b1.mass) /
        (1 / b1.mass + 1 / b2.mass),
      -(normalY b1 b2 * penetrationDepth b1 b2 * 0.4) * (1 / b1.mass) /
        (1 / b1.mass + 1 / b2.mass)⟩ : Vec2) =
      ⟨(-(penetrationDepth b1 b2 * 0.4 * (1 / b1.mass) /
          (1 / b1.mass + 1 / b2.mass))) * normalX b1 b2,
       (-(penetrationDepth b1 b2 * 0.4 * (1 / b1.mass) /
          (1 / b1.mass + 1 / b2.mass))) * normalY b1 b2⟩ := by
    congr 1 <;> ring
  have hpj : (⟨normalX b1 b2 * penetrationDepth b1 b2 * 0.4 * (1 / b2.mass) /
        (1 / b1.mass + 1 / b2.mass),
      normalY b1 b2 * penetrationDepth b1 b2 * 0.4 * (1 / b2.mass) /
        (1 / b1.mass + 1 / b2.mass)⟩ : Vec2) =
      ⟨(penetrationDepth b1 b2 * 0.4 * (1 / b2.mass) /
          (1 / b1.mass + 1 / b2.mass)) * normalX b1 b2,
       (penetrationDepth b1 b2 * 0.4 * (1 / b2.mass) /
          (1 / b1.mass + 1 / b2.mass)) * normalY b1 b2⟩ := by
    congr 1 <;> ring
  have hXi : Vec2.norm
      ⟨-(normalX b1 b2 * penetrationDepth b1 b2 * 0.4) * (1 / b1.mass) /
        (1 / b1.mass + 1 / b2.mass),
       -(normalY b1 b2 * penetrationDepth b1 b2 * 0.4) * (1 / b1.mass) /
        (1 / b1.mass + 1 / b2.mass)⟩ =
      penetrationDepth b1 b2 * 0.4 * (1 / b1.mass) /
        (1 / b1.mass + 1 / b2.mass) := by
    rw [hpi, norm_scale, hn, mul_one, abs_neg, abs_of_nonneg hXi0.le]
  have hXj : Vec2.norm
      ⟨normalX b1 b2 * penetrationDepth b1 b2 * 0.4 * (1 / b2.mass) /
        (1 / b1.mass + 1 / b2.mass),
       normalY b1 b2 * penetrationDepth b1 b2 * 0.4 * (1 / b2.mass) /
        (1 / b1.mass + 1 / b2.mass)⟩ =
      penetrationDepth b1 b2 * 0.4 * (1 / b2.mass) /
        (1 / b1.mass + 1 / b2.mass) := by
    rw [hpj, norm_scale, hn, mul_one, abs_of_nonneg hXj0.le]
  refine ⟨_, collisionEntry_eval 0 1 b1 b2 hcol happ, ?_, ?_, ?_, ?_, ?_⟩
  · dsimp only
    field_simp
    ring
  · dsimp only
    field_simp
    ring
  · dsimp only
    rw [hXi, hXj]
    field_simp
    ring
  · dsimp only
    rw [hXi, hXj]
    field_simp
    ring
  · intro hle
    dsimp only
    rw [hXi, hXj]
    rw [div_le_div_iff_of_pos_right hS]
    exact mul_le_mul_of_nonneg_left (one_div_le_one_div_of_le hm1 hle)
      (le_of_lt (mul_pos hpen (by norm_num)))

/-- C2 witness: the amended positional-correction theorem applied to the
concrete overlapping approaching pair `collideA`, `collideB`. -/
theorem c2_positional_correction_witness :
    ((0:ℝ) < collideA.mass ∧ (0:ℝ) < collideB.mass ∧
      (0.001:ℝ) ≤ Vec2.distance collideA.position collideB.position ∧
      Vec2.distance collideA.position collideB.position <
        collideA.radius + collideB.radius ∧
      relVelAlongNormal collideA collideB < 0) ∧
    (∃ e, collisionEntry 0 1 collideA collideB = some e ∧
      e.pos_j.x - e.pos_i.x =
        0.4 * penetrationDepth collideA collideB * normalX collideA collideB ∧
      e.pos_j.y - e.pos_i.y =
        0.4 * penetrationDepth collideA collideB * normalY collideA collideB ∧
      Vec2.norm e.pos_i + Vec2.norm e.pos_j =
        0.4 * penetrationDepth collideA collideB ∧
      collideA.mass * Vec2.norm e.pos_i = collideB.mass * Vec2.norm e.pos_j ∧
      (collideA.mass ≤ collideB.mass →
        Vec2.norm e.pos_j ≤ Vec2.norm e.pos_i)) :=
  ⟨⟨by norm_num [collideA], by norm_num [collideB],
    by rw [collide_distance]; norm_num,
    by rw [collide_distance]; norm_num [collideA, collideB],
    by rw [collide_relVel]; norm_num⟩,
   c2_positional_correction_amended collideA collideB
    (by norm_num [collideA]) (by norm_num [collideB])
    (by rw [collide_distance]; norm_num)
    (by rw [collide_distance]; norm_num [collideA, collideB])
    (by rw [collide_relVel]; norm_num)⟩

/-- C1: the claim says `calculate_forces` guards a true zero distance so the
returned forces hold no NaN/Inf. The code has no such guard: for two bodies
with coincident centers the pair distance is 0 and lines 262-263 divide
`force_magnitude * dx` (which is 0) by that zero distance, an IEEE
`0.0 / 0.0` that yields NaN in both bodies' force slots. The checked
embedding returns `none` on exactly that division by zero. -/
theorem c1_force_division_by_zero :
    Vec2.distance coincidentA.position coincidentB.position = 0 ∧
    calculate_forcesChecked 6.67430e-1 [coincidentA, coincidentB] = none := by
  have hd : Vec2.distance coincidentA.position coincidentB.position = 0 := by
    simp [Vec2.distance, coincidentA, coincidentB]
  refine ⟨hd, ?_⟩
  have hcond : ¬ (∀ ij ∈ pairList (List.length [coincidentA, coincidentB]),
      Vec2.distance ((List.getD [coincidentA, coincidentB] ij.1 default)).position
        ((List.getD [coincidentA, coincidentB] ij.2 default)).position ≠ 0) := by
    intro h
    have hmem : ((0 : ℕ), (1 : ℕ)) ∈ pairList (List.length [coincidentA, coincidentB]) := by
      simp [pairList_two]
    have := h (0, 1) hmem
    simp at this
    exact this hd
  simp only [calculate_forcesChecked]
  exact if_neg hcond

/-- C3 counterexample: with `time_multiplier = -1` (accepted without
validation by `set_time_multiplier`) and `is_running = true`, one `step()`
strictly decreases `elapsed_time`, so elapsed time is not monotonically
non-decreasing while running. -/
theorem c3_counterexample :
    backwardState.is_running = true ∧
    backwardState.step.elapsed_time < backwardState.elapsed_time := by
  refine ⟨rfl, ?_⟩
  simp only [SimulationState.step, backwardState]
  norm_num

/-- C3 amended: `step()` adds `time_step * time_multiplier` to
`elapsed_time` when running, so elapsed time is non-decreasing whenever that
product is non-negative (in particular for the default positive settings),
and `elapsed_time` never changes when `is_running` is false. -/
theorem c3_elapsed_time_amended (s : SimulationState) :
    (0 ≤ s.time_step * s.time_multiplier →
      s.elapsed_time ≤ s.step.elapsed_time) ∧
    (s.is_running = false → s.step.elapsed_time = s.elapsed_time) := by
  constructor
  · intro h
    by_cases hr : s.is_running
    · simp only [SimulationState.step, hr, if_true]
      linarith
    · simp [SimulationState.step, hr]
  · intro h
    simp [SimulationState.step, h]

/-- C3 witness: the amended theorem applied to a concrete running state with
non-negative effective step and to a concrete paused state. -/
theorem c3_elapsed_time_witness :
    demoState.elapsed_time ≤ demoState.step.elapsed_time ∧
    pausedState.step.elapsed_time = pausedState.elapsed_time :=
  ⟨(c3_elapsed_time_amended demoState).1 (by norm_num [demoState]),
   (c3_elapsed_time_amended pausedState).2 rfl⟩

theorem calc_forces_length (g : ℝ) (bodies : List Body) :
    (calculate_forces g bodies).length = bodies.length := by
  have h : ∀ (l : List (ℕ × ℕ)) (init : List Vec2),
      (l.foldl (applyPairForce g bodies) init).length = init.length := by
    intro l
    induction l with
    | nil => intro init; rfl
    | cons p t ih =>
      intro init
      rw [List.foldl_cons, ih]
      simp [applyPairForce]
  rw [calculate_forces, h, List.length_replicate]

theorem zipWith_getD {α β γ : Type} [Inhabited α] [Inhabited β] [Inhabited γ]
    (f : α → β → γ) (as : List α) (bs : List β) (i : ℕ)
    (ha : i < as.length) (hb : i < bs.length) :
    (List.zipWith f as bs).getD i default =
      f (as.getD i default) (bs.getD i default) := by
  induction as generalizing bs i with
  | nil => simp at ha
  | cons a as2 ih =>
    cases bs with
    | nil => simp at hb
    | cons b bs2 =>
      cases i with
      | zero => rfl
      | succ n =>
        simp only [List.zipWith_cons_cons, List.getD_cons_succ]
        exact ih bs2 n (by simpa using ha) (by simpa using hb)

/-- C5: for every running state and in-range body index, the step integrates
with semi-implicit Euler at `dt_eff = time_step * time_multiplier`: the new
velocity is the old velocity plus `(force / mass) * dt_eff`, and the new
position is the old position plus the ALREADY-UPDATED velocity times
`dt_eff`; `step` then runs collision resolution on the integrated bodies and
advances the clock by `dt_eff`. -/
theorem c5_semi_implicit_euler (s : SimulationState)
    (hrun : s.is_running = true) (i : ℕ) (hi : i < s.bodies.length) :
    ((integrate (s.time_step * s.time_multiplier) s.bodies
        (calculate_forces s.gravity_constant s.bodies)).getD i default).velocity.x =
      (s.bodies.getD i default).velocity.x +
        ((calculate_forces s.gravity_constant s.bodies).getD i default).x /
          (s.bodies.getD i default).mass * (s.time_step * s.time_multiplier) ∧
    ((integrate (s.time_step * s.time_multiplier) s.bodies
        (calculate_forces s.gravity_constant s.bodies)).getD i default).velocity.y =
      (s.bodies.getD i default).velocity.y +
        ((calculate_forces s.gravity_constant s.bodies).getD i default).y /
          (s.bodies.getD i default).mass * (s.time_step * s.time_multiplier) ∧
    ((integrate (s.time_step * s.time_multiplier) s.bodies
        (calculate_forces s.gravity_constant s.bodies)).getD i default).position.x =
      (s.bodies.getD i default).position.x +
        ((integrate (s.time_step * s.time_multiplier) s.bodies
          (calculate_forces s.gravity_constant s.bodies)).getD i
            default).velocity.x * (s.time_step * s.time_multiplier) ∧
    ((integrate (s.time_step * s.time_multiplier) s.bodies
        (calculate_forces s.gravity_constant s.bodies)).getD i default).position.y =
      (s.bodies.getD i default).position.y +
        ((integrate (s.time_step * s.time_multiplier) s.bodies
          (calculate_forces s.gravity_constant s.bodies)).getD i
            default).velocity.y * (s.time_step * s.time_multiplier) ∧
    s.step.bodies = handle_collisions (integrate
      (s.time_step * s.time_multiplier) s.bodies
      (calculate_forces s.gravity_constant s.bodies)) ∧
    s.step.elapsed_time = s.elapsed_time + s.time_step * s.time_multiplier := by
  have hf : i < (calculate_forces s.gravity_constant s.bodies).length := by
    rw [calc_forces_length]
    exact hi
  have hb2 : (integrate (s.time_step * s.time_multiplier) s.bodies
      (calculate_forces s.gravity_constant s.bodies)).getD i default =
      integrateBody (s.time_step * s.time_multiplier) (s.bodies.getD i default)
        ((calculate_forces s.gravity_constant s.bodies).getD i default) :=
    zipWith_getD _ s.bodies _ i hi hf
  refine ⟨?_, ?_, ?_, ?_, ?_, ?_⟩
  · rw [hb2]; rfl
  · rw [hb2]; rfl
  · rw [hb2]; rfl
  · rw [hb2]; rfl
  · simp only [SimulationState.step, hrun, if_true]
  · simp only [SimulationState.step, hrun, if_true]

/-- C5 witness: the symplectic-Euler step relations at a concrete running
one-body state and body index 0. -/
theorem c5_semi_implicit_euler_witness :
    (runState.is_running = true ∧ 0 < runState.bodies.length) ∧
    (((integrate (runState.time_step * runState.time_multiplier) runState.bodies
        (calculate_forces runState.gravity_constant runState.bodies)).getD 0
          default).velocity.x =
      (runState.bodies.getD 0 default).velocity.x +
        ((calculate_forces runState.gravity_constant runState.bodies).getD 0
            default).x /
          (runState.bodies.getD 0 default).mass *
          (runState.time_step * runState.time_multiplier) ∧
    ((integrate (runState.time_step * runState.time_multiplier) runState.bodies
        (calculate_forces runState.gravity_constant runState.bodies)).getD 0
          default).velocity.y =
      (runState.bodies.getD 0 default).velocity.y +
        ((calculate_forces runState.gravity_constant runState.bodies).getD 0
            default).y /
          (runState.bodies.getD 0 default).mass *
          (runState.time_step * runState.time_multiplier) ∧
    ((integrate (runState.time_step * runState.time_multiplier) runState.bodies
        (calculate_forces runState.gravity_constant runState.bodies)).getD 0
          default).position.x =
      (runState.bodies.getD 0 default).position.x +
        ((integrate (runState.time_step * runState.time_multiplier)
          runState.bodies (calculate_forces runState.gravity_constant
            runState.bodies)).getD 0 default).velocity.x *
          (runState.time_step * runState.time_multiplier) ∧
    ((integrate (runState.time_step * runState.time_multiplier) runState.bodies
        (calculate_forces runState.gravity_constant runState.bodies)).getD 0
          default).position.y =
      (runState.bodies.getD 0 default).position.y +
        ((integrate (runState.time_step * runState.time_multiplier)
          runState.bodies (calculate_forces runState.gravity_constant
            runState.bodies)).getD 0 default).velocity.y *
          (runState.time_step * runState.time_multiplier) ∧
    runState.step.bodies = handle_collisions (integrate
      (runState.time_step * runState.time_multiplier) runState.bodies
      (calculate_forces runState.gravity_constant runState.bodies)) ∧
    runState.step.elapsed_time = runState.elapsed_time +
      runState.time_step * runState.time_multiplier) :=
  ⟨⟨rfl, by norm_num [runState]⟩,
   c5_semi_implicit_euler runState rfl 0 (by norm_num [runState])⟩

/-- C10: for a pair of bodies whose centers coincide exactly while their
radii overlap, the collision resolver stays finite and inert: the clamped
inverse distance is exactly `1 / 0.001 = 1000`, both components of the
contact normal are the zero vector, the relative-velocity-along-normal test
evaluates to 0 (not strictly negative), the pair is recorded as no
collision entry, and a two-body list of such a pair passes through
`handle_collisions` unchanged. -/
theorem c10_coincident_pair_skipped (b1 b2 : Body)
    (hpos : b1.position = b2.position) (hr : 0 < b1.radius + b2.radius) :
    Vec2.distance b1.position b2.position = 0 ∧
    (1 : ℝ) / max (Vec2.distance b1.position b2.position) 0.001 = 1000 ∧
    normalX b1 b2 = 0 ∧
    normalY b1 b2 = 0 ∧
    relVelAlongNormal b1 b2 = 0 ∧
    collisionEntry 0 1 b1 b2 = none ∧
    handle_collisions [b1, b2] = [b1, b2] := by
  have hd : Vec2.distance b1.position b2.position = 0 := by
    rw [hpos, Vec2.distance]
    simp
  have hdx : b2.position.x - b1.position.x = 0 := by rw [hpos]; ring
  have hdy : b2.position.y - b1.position.y = 0 := by rw [hpos]; ring
  have hnx : normalX b1 b2 = 0 := by rw [normalX, hdx, zero_mul]
  have hny : normalY b1 b2 = 0 := by rw [normalY, hdy, zero_mul]
  have hrel : relVelAlongNormal b1 b2 = 0 := by
    rw [relVelAlongNormal, hnx, hny]
    ring
  have hentry : collisionEntry 0 1 b1 b2 = none := by
    simp only [collisionEntry]
    rw [if_pos (by rw [hd]; exact hr), if_neg]
    rw [hdx, hdy]
    simp
  refine ⟨hd, ?_, hnx, hny, hrel, hentry, ?_⟩
  · rw [hd, max_eq_right (by norm_num : (0:ℝ) ≤ 0.001)]
    norm_num
  · simp only [handle_collisions]
    rw [show pairList (List.length [b1, b2]) = [(0, 1)] from pairList_two]
    simp [hentry]

/-- C10 witness: the coincident-pair skip at the concrete coincident bodies. -/
theorem c10_coincident_pair_skipped_witness :
    (coincidentA.position = coincidentB.position ∧
      (0:ℝ) < coincidentA.radius + coincidentB.radius) ∧
    (Vec2.distance coincidentA.position coincidentB.position = 0 ∧
    (1 : ℝ) /
      max (Vec2.distance coincidentA.position coincidentB.position) 0.001 =
      1000 ∧
    normalX coincidentA coincidentB = 0 ∧
    normalY coincidentA coincidentB = 0 ∧
    relVelAlongNormal coincidentA coincidentB = 0 ∧
    collisionEntry 0 1 coincidentA coincidentB = none ∧
    handle_collisions [coincidentA, coincidentB] =
      [coincidentA, coincidentB]) :=
  ⟨⟨rfl, by norm_num [coincidentA, coincidentB]⟩,
   c10_coincident_pair_skipped coincidentA coincidentB rfl
    (by norm_num [coincidentA, coincidentB])⟩

/-- C4: with `is_running = false`, `step()` is a complete no-op: the whole
state, in particular every body's position, velocity, mass, radius, id and
color and the elapsed time, is returned unchanged (physics.rs lines 144-146
return before any force computation). -/
theorem c4_pause_noop (s : SimulationState) (h : s.is_running = false) :
    s.step = s := by
  simp [SimulationState.step, h]

/-- C4 witness: the pause no-op at a concrete paused state. -/
theorem c4_pause_noop_witness :
    pausedState.is_running = false ∧ pausedState.step = pausedState :=
  ⟨rfl, c4_pause_noop pausedState rfl⟩

/-- C6: for every two-body list, the force `calculate_forces` returns for
body 0 is the exact negation of the force returned for body 1: the single
pass over the unordered pair adds the contribution to slot 0 and subtracts
the same value from slot 1. -/
theorem c6_newton_third_law (g : ℝ) (b1 b2 : Body) :
    (calculate_forces g [b1, b2]).getD 0 default =
      Vec2.neg ((calculate_forces g [b1, b2]).getD 1 default) := by
  have hcf : calculate_forces g [b1, b2] =
      [⟨0 + (pairForce g b1 b2).x, 0 + (pairForce g b1 b2).y⟩,
       ⟨0 - (pairForce g b1 b2).x, 0 - (pairForce g b1 b2).y⟩] := rfl
  rw [hcf]
  show (⟨0 + (pairForce g b1 b2).x, 0 + (pairForce g b1 b2).y⟩ : Vec2) =
    Vec2.neg ⟨0 - (pairForce g b1 b2).x, 0 - (pairForce g b1 b2).y⟩
  simp [Vec2.neg]

/-- C7: `update_body` with an id no body carries leaves the list completely
unchanged; with an id carried by the body at index `i` (and by none before
it), exactly the fields passed as `some` are assigned — with no sign or
magnitude validation, the values being arbitrary reals — every field passed
as `none` keeps its previous value, and every other body is untouched. -/
theorem c7_update_body (bodies : List Body) (id : ℕ)
    (mass px py vx vy r : Option ℝ) (c : Option String) :
    ((∀ b ∈ bodies, b.id ≠ id) →
      update_body bodies id mass px py vx vy r c = bodies) ∧
    (∀ i, i < bodies.length → (bodies.getD i default).id = id →
      (∀ k, k < i → (bodies.getD k default).id ≠ id) →
      ((update_body bodies id mass px py vx vy r c).getD i default =
        { id := (bodies.getD i default).id,
          mass := mass.getD (bodies.getD i default).mass,
          position := ⟨px.getD (bodies.getD i default).position.x,
                       py.getD (bodies.getD i default).position.y⟩,
          velocity := ⟨vx.getD (bodies.getD i default).velocity.x,
                       vy.getD (bodies.getD i default).velocity.y⟩,
          radius := r.getD (bodies.getD i default).radius,
          color := c.getD (bodies.getD i default).color } ∧
      ∀ k, k ≠ i →
        (update_body bodies id mass px py vx vy r c).getD k default =
          bodies.getD k default)) := by
  induction bodies with
  | nil =>
    refine ⟨fun _ => rfl, fun i hi => ?_⟩
    simp at hi
  | cons b rest ih =>
    constructor
    · intro h
      have hb : b.id ≠ id := h b (List.mem_cons_self b rest)
      rw [update_body, if_neg hb, ih.1 (fun x hx => h x (List.mem_cons_of_mem b hx))]
    · intro i hi hid hfirst
      by_cases hb : b.id = id
      · cases i with
        | zero =>
          rw [update_body, if_pos hb]
          refine ⟨rfl, fun k hk => ?_⟩
          cases k with
          | zero => exact absurd rfl hk
          | succ n => rfl
        | succ n =>
          exact absurd hb (hfirst 0 (Nat.succ_pos n))
      · cases i with
        | zero => exact absurd hid hb
        | succ n =>
          have h2 := ih.2 n (by simpa using hi) (by simpa using hid)
            (fun k hk => by simpa using hfirst (k + 1) (Nat.succ_lt_succ hk))
          constructor
          · rw [update_body, if_neg hb]
            simpa using h2.1
          · intro k hk
            cases k with
            | zero =>
              rw [update_body, if_neg hb]
              rfl
            | succ m =>
              rw [update_body, if_neg hb]
              simpa using h2.2 m (fun he => hk (by rw [he]))

/-- C7 witness: updating only the mass of the body with id 2 in a two-body
list changes exactly that field of that body and nothing else. -/
theorem c7_update_body_witness :
    ((1 : ℕ) < (List.length [coincidentA, coincidentB]) ∧
      (([coincidentA, coincidentB].getD 1 default).id = 2) ∧
      (∀ k, k < 1 → (([coincidentA, coincidentB].getD k default).id ≠ 2))) ∧
    ((update_body [coincidentA, coincidentB] 2 (some 42) none none none none
        none none).getD 1 default =
      { id := ([coincidentA, coincidentB].getD 1 default).id,
        mass := (some (42:ℝ)).getD ([coincidentA, coincidentB].getD 1 default).mass,
        position :=
          ⟨(none : Option ℝ).getD
              ([coincidentA, coincidentB].getD 1 default).position.x,
           (none : Option ℝ).getD
              ([coincidentA, coincidentB].getD 1 default).position.y⟩,
        velocity :=
          ⟨(none : Option ℝ).getD
              ([coincidentA, coincidentB].getD 1 default).velocity.x,
           (none : Option ℝ).getD
              ([coincidentA, coincidentB].getD 1 default).velocity.y⟩,
        radius := (none : Option ℝ).getD
          ([coincidentA, coincidentB].getD 1 default).radius,
        color := (none : Option String).getD
          ([coincidentA, coincidentB].getD 1 default).color } ∧
      ∀ k, k ≠ 1 →
        (update_body [coincidentA, coincidentB] 2 (some 42) none none none
          none none none).getD k default =
          [coincidentA, coincidentB].getD k default) :=
  ⟨⟨by norm_num, by rw [List.getD_cons_succ, List.getD_cons_zero]; rfl,
    fun k hk => by
      have hk0 : k = 0 := Nat.lt_one_iff.mp hk
      rw [hk0, List.getD_cons_zero]
      norm_num [coincidentA]⟩,
   (c7_update_body [coincidentA, coincidentB] 2 (some 42) none none none none
      none none).2 1 (by norm_num)
    (by rw [List.getD_cons_succ, List.getD_cons_zero]; rfl)
    (fun k hk => by
      have hk0 : k = 0 := Nat.lt_one_iff.mp hk
      rw [hk0, List.getD_cons_zero]
      norm_num [coincidentA])⟩

/-- C8: each moon of the initial configuration sits at angle `π·i/N` over a
half circle from its host satellite (the body stored at index 2), at the
listed orbital distance, moving at circular-orbit speed
`sqrt(G · host_mass / distance)` tangentially, with position and velocity
offset by the host's position and velocity — the host entry the moons are
offset from is unperturbed by the moons themselves — and carries
id `6 + i`, continuing sequentially after the satellites' ids 2 through 5. -/
theorem c8_moons (i : ℕ) (hi : i < 2) :
    (SimulationState.new.bodies.getD (5 + i) default).id = 6 + i ∧
    (SimulationState.new.bodies.getD (5 + i) default).mass =
      (moon_data.getD i default).1 ∧
    (SimulationState.new.bodies.getD (5 + i) default).radius =
      (moon_data.getD i default).2.2.1 ∧
    (SimulationState.new.bodies.getD (5 + i) default).color =
      (moon_data.getD i default).2.2.2 ∧
    (SimulationState.new.bodies.getD (5 + i) default).position.x =
      (SimulationState.new.bodies.getD 2 default).position.x +
        Real.cos (Real.pi * i / 2) * (moon_data.getD i default).2.1 ∧
    (SimulationState.new.bodies.getD (5 + i) default).position.y =
      (SimulationState.new.bodies.getD 2 default).position.y +
        Real.sin (Real.pi * i / 2) * (moon_data.getD i default).2.1 ∧
    (SimulationState.new.bodies.getD (5 + i) default).velocity.x =
      (SimulationState.new.bodies.getD 2 default).velocity.x -
        Real.sin (Real.pi * i / 2) *
          Real.sqrt (6.67430e-1 * (SimulationState.new.bodies.getD 2
            default).mass / (moon_data.getD i default).2.1) ∧
    (SimulationState.new.bodies.getD (5 + i) default).velocity.y =
      (SimulationState.new.bodies.getD 2 default).velocity.y +
        Real.cos (Real.pi * i / 2) *
          Real.sqrt (6.67430e-1 * (SimulationState.new.bodies.getD 2
            default).mass / (moon_data.getD i default).2.1) := by
  interval_cases i <;>
    refine ⟨rfl, rfl, rfl, rfl, ?_, ?_, ?_, ?_⟩ <;>
    simp [SimulationState.new, planet_data, moon_data, mkPlanets, mkPlanet,
      mkMoons, mkMoon]

/-- C8 witness: the moon placement relations at the concrete moon index 1. -/
theorem c8_moons_witness :
    (1 : ℕ) < 2 ∧
    ((SimulationState.new.bodies.getD (5 + 1) default).id = 6 + 1 ∧
    (SimulationState.new.bodies.getD (5 + 1) default).mass =
      (moon_data.getD 1 default).1 ∧
    (SimulationState.new.bodies.getD (5 + 1) default).radius =
      (moon_data.getD 1 default).2.2.1 ∧
    (SimulationState.new.bodies.getD (5 + 1) default).color =
      (moon_data.getD 1 default).2.2.2 ∧
    (SimulationState.new.bodies.getD (5 + 1) default).position.x =
      (SimulationState.new.bodies.getD 2 default).position.x +
        Real.cos (Real.pi * 1 / 2) * (moon_data.getD 1 default).2.1 ∧
    (SimulationState.new.bodies.getD (5 + 1) default).position.y =
      (SimulationState.new.bodies.getD 2 default).position.y +
        Real.sin (Real.pi * 1 / 2) * (moon_data.getD 1 default).2.1 ∧
    (SimulationState.new.bodies.getD (5 + 1) default).velocity.x =
      (SimulationState.new.bodies.getD 2 default).velocity.x -
        Real.sin (Real.pi * 1 / 2) *
          Real.sqrt (6.67430e-1 * (SimulationState.new.bodies.getD 2
            default).mass / (moon_data.getD 1 default).2.1) ∧
    (SimulationState.new.bodies.getD (5 + 1) default).velocity.y =
      (SimulationState.new.bodies.getD 2 default).velocity.y +
        Real.cos (Real.pi * 1 / 2) *
          Real.sqrt (6.67430e-1 * (SimulationState.new.bodies.getD 2
            default).mass / (moon_data.getD 1 default).2.1)) :=
  ⟨by norm_num, by
    have h := c8_moons 1 (by norm_num)
    simpa using h⟩

/-- C9: the default constructor is pure and deterministic: two invocations
give the same state, with `time_step = 0.01`, `time_multiplier = 1`,
`gravity_constant = 0.667430`, `is_running = false`, `elapsed_time = 0`, and
seven bodies carrying ids 1 through 7 in insertion order. -/
theorem c9_default_deterministic :
    SimulationState.new = SimulationState.new ∧
    SimulationState.new.time_step = 0.01 ∧
    SimulationState.new.time_multiplier = 1.0 ∧
    SimulationState.new.gravity_constant = 6.67430e-1 ∧
    SimulationState.new.is_running = false ∧
    SimulationState.new.elapsed_time = 0.0 ∧
    SimulationState.new.bodies.map Body.id = [1, 2, 3, 4, 5, 6, 7] := by
  refine ⟨rfl, rfl, rfl, rfl, rfl, rfl, ?_⟩
  simp [SimulationState.new, planet_data, moon_data, mkPlanets, mkPlanet,
    mkMoons, mkMoon]

end AfghanTracklist
